import Mathlib

/-!
# Verification of the NM COAST bike/pedestrian counting API

Shallow embedding of the two FastAPI app variants of this repository:

* `src/api/nmcoast_api_new.py` — the SQLite-backed variant (Pydantic models,
  `validate_data`/`load_data` ingestion pipeline, `DatabaseManager` queries,
  route handlers).  Its definitions live at top level below.
* `src/api/nmcoast_api.py` — the mock-data variant (its own Pydantic models,
  hard-coded `mock_counters`/`mock_datastreams`, a seeded generator for
  `mock_counts`, route handlers).  Its definitions live in namespace `MockApi`.

Machine integers are modelled as `Int`/`Nat`; Python floats whose exact values
do not influence control flow are modelled as `Rat`; fallible code returns
`Except`/`Option`; HTTP handlers return an `ApiResult`.
-/

/-! ## Shared value model -/

/-- A timezone-naive or timezone-tagged timestamp.  `datetime(y, m, d, h, 0, 0)`
in the sources is modelled by its calendar fields. -/
structure DateTimeVal where
  year : Nat
  month : Nat
  day : Nat
  hour : Nat
  minute : Nat
  second : Nat
deriving DecidableEq, Repr

/-- A single cell of a pandas DataFrame column, as manipulated by
`validate_data`.  `dtV instant tz` is a timezone-aware pandas `Timestamp`:
`instant` is the absolute time (seconds since the Unix epoch, UTC) and `tz`
the display timezone; `nanV`/`natV`/`infV`/`ninfV` are the float/na sentinels
`NaN`, `NaT`, `inf`, `-inf`; `noneV` is Python `None`. -/
inductive CellValue where
  | intV (n : Int)
  | floatV (q : Rat)
  | strV (s : String)
  | dtV (instant : Int) (tz : String)
  | nanV
  | natV
  | infV
  | ninfV
  | noneV
deriving DecidableEq, Repr

/-- Outcome of a FastAPI route handler: a JSON payload, or an
`HTTPException(404)`.  (500s do not occur in the handler logic modelled here;
they are raised inside `DatabaseManager` only on SQL driver errors.) -/
inductive ApiResult (α : Type) where
  | ok (val : α)
  | err404
deriving DecidableEq, Repr

/-! ## Pydantic models of `nmcoast_api_new.py` (lines 45-148) -/

/-- `Counter` Pydantic model of `nmcoast_api_new.py` (lines 45-71). -/
structure Counter where
  counter_id : Int
  counter_code : String
  counter_name : String
  vendor : String
  vendor_site_id : String
  latitude : Rat
  longitude : Rat
  counter_notes : Option String
deriving DecidableEq, Repr

/-- `DatastreamType` enum of `nmcoast_api_new.py` (lines 73-81). -/
inductive DatastreamType where
  | PEDESTRIAN
  | CYCLIST
  | ROADWAY_CYCLIST
  | SIDEWALK_CYCLIST
  | COMBINED
deriving DecidableEq, Repr

/-- `DatastreamDirection` enum, identical in both variants
(`nmcoast_api_new.py` lines 83-93, `nmcoast_api.py` lines 74-84). -/
inductive DatastreamDirection where
  | IN
  | OUT
  | NORTHBOUND
  | SOUTHBOUND
  | EASTBOUND
  | WESTBOUND
  | COMBINED
deriving DecidableEq, Repr

/-- `Datastream` Pydantic model of `nmcoast_api_new.py` (lines 95-116). -/
structure Datastream where
  datastream_id : Int
  counter_id : Int
  datastream_type : DatastreamType
  datastream_name : String
  datastream_direction : DatastreamDirection
  datastream_notes : Option String
deriving DecidableEq, Repr

/-- `Count` Pydantic model, identical field-for-field in both variants
(`nmcoast_api_new.py` lines 118-131, `nmcoast_api.py` lines 109-122).
Every QA flag is annotated `Optional[int]` in the source; the 0/1 reading
appears only in the field descriptions, not in the type. -/
structure Count where
  count_id : Int
  datastream_id : Int
  date_time : DateTimeVal
  raw_count : Option Int
  maxday : Option Int
  maxhour : Option Int
  gap : Option Int
  zero : Option Int
  stat : Option Int
  cleaned_count : Option Rat
deriving DecidableEq, Repr

/-- The QA flag fields of a `Count`, in declaration order
(`nmcoast_api_new.py` lines 126-130). -/
def Count.qaFlags (c : Count) : List (Option Int) :=
  [c.maxday, c.maxhour, c.gap, c.zero, c.stat]

/-! ## `DatabaseManager` queries and route handlers of `nmcoast_api_new.py` -/

/-- `DatabaseManager.get_datastreams_for_counter_from_db` (lines 346-352):
`SELECT * FROM datastreams WHERE counter_id = {counter_id}`, each row read
back into the `Datastream` model.  The table is modelled as the list of its
rows. -/
def get_datastreams_for_counter_from_db (table : List Datastream)
    (counter_id : Int) : List Datastream :=
  table.filter (fun d => d.counter_id == counter_id)

/-- `DatabaseManager.get_counts_for_datastream_from_db` (lines 354-412):
`SELECT * FROM counts WHERE datastream_id = {datastream_id}`.  The
per-record cleaning pass that follows the query (lines 360-394) re-coerces
raw SQL cell values into the model's optional numeric types; on a table of
rows that already conform to the `Count` model — which is what the validated
loader `load_data` inserts — it is the identity, so the query is modelled as
the WHERE-clause filter over the typed rows. -/
def get_counts_for_datastream_from_db (table : List Count)
    (datastream_id : Int) : List Count :=
  table.filter (fun c => c.datastream_id == datastream_id)

/-- Route handler `get_datastreams_for_counter` of `nmcoast_api_new.py`
(lines 434-442): fetch the filtered datastreams and raise 404 when the
resulting list is falsy (`if not datastreams`).  Note that it never consults
the counters table. -/
def new_get_datastreams_for_counter (table : List Datastream)
    (counter_id : Int) : ApiResult (List Datastream) :=
  let datastreams := get_datastreams_for_counter_from_db table counter_id
  if datastreams = [] then .err404 else .ok datastreams

/-- Route handler `get_counts_for_datastream` of `nmcoast_api_new.py`
(lines 444-452): fetch the filtered counts and raise 404 when the resulting
list is falsy (`if not counts`). -/
def new_get_counts_for_datastream (table : List Count)
    (datastream_id : Int) : ApiResult (List Count) :=
  let counts := get_counts_for_datastream_from_db table datastream_id
  if counts = [] then .err404 else .ok counts

/-- `health_check` of `nmcoast_api_new.py` (lines 482-484): the returned
JSON object `{"status": ..., "message": ...}` as a pair. -/
def health_check : String × String :=
  ("healthy", "NM COAST API is running")

/-- Route paths registered on the module-level FastAPI `app` of
`nmcoast_api_new.py` (line 482). -/
def newAppBaseRoutes : List String := ["/health"]

/-- Route paths registered by `NMCOAST_API.register_routes` on a router with
empty prefix (`nmcoast_api_new.py` lines 426-452). -/
def newRouterRoutes : List String :=
  ["/counters/", "/counters/{counter_id}/datastreams/",
   "/datastreams/{datastream_id}/counts"]

/-- All GET routes of the SQLite-backed app once `__main__` includes the
router (`nmcoast_api_new.py` lines 487-493). -/
def newAppRoutes : List String := newAppBaseRoutes ++ newRouterRoutes

/-! ## Mock-data variant `nmcoast_api.py` -/

namespace MockApi

/-- `Counter` Pydantic model of `nmcoast_api.py` (lines 39-63); unlike the
SQLite variant it has no `vendor_site_id` field. -/
structure Counter where
  counter_id : Int
  counter_code : String
  counter_name : String
  vendor : String
  latitude : Rat
  longitude : Rat
  counter_notes : Option String
deriving DecidableEq, Repr

/-- `DatastreamType` enum of `nmcoast_api.py` (lines 65-72). -/
inductive DatastreamType where
  | PEDESTRIAN
  | ROADWAY_CYCLIST
  | SIDEWALK_CYCLIST
  | COMBINED
deriving DecidableEq, Repr

/-- `Datastream` Pydantic model of `nmcoast_api.py` (lines 86-107). -/
structure Datastream where
  datastream_id : Int
  counter_id : Int
  datastream_type : DatastreamType
  datastream_name : String
  datastream_direction : DatastreamDirection
  datastream_notes : Option String
deriving DecidableEq, Repr

/-- `mock_counters` (`nmcoast_api.py` lines 144-235). -/
def mock_counters : List Counter :=
  [{ counter_id := 1, counter_code := "BOA_STADIUM",
     counter_name := "Bank of America Stadium", vendor := "SensorCorp",
     latitude := 35.225833, longitude := -80.852778,
     counter_notes := some "Main entrance" },
   { counter_id := 2, counter_code := "BOA_SOUTH",
     counter_name := "Stadium South Gate", vendor := "SensorCorp",
     latitude := 35.226, longitude := -80.853,
     counter_notes := some "South gate entrance" },
   { counter_id := 3, counter_code := "FREEDOM_PARK",
     counter_name := "Freedom Park Main Entrance", vendor := "TrailTech",
     latitude := 35.186, longitude := -80.827,
     counter_notes := some "Park main entrance" },
   { counter_id := 4, counter_code := "SUGAR_CREEK",
     counter_name := "Little Sugar Creek Greenway", vendor := "TrailTech",
     latitude := 35.198, longitude := -80.840,
     counter_notes := some "Trailhead counter" },
   { counter_id := 5, counter_code := "ROMARE_BEARDEN",
     counter_name := "Romare Bearden Park", vendor := "TrailTech",
     latitude := 35.225, longitude := -80.844,
     counter_notes := some "Downtown park entrance" },
   { counter_id := 6, counter_code := "CONVENTION",
     counter_name := "Charlotte Convention Center", vendor := "SensorCorp",
     latitude := 35.223, longitude := -80.841,
     counter_notes := some "Main lobby entrance" },
   { counter_id := 7, counter_code := "MINT_MUSEUM",
     counter_name := "Mint Museum", vendor := "SensorCorp",
     latitude := 35.224, longitude := -80.839,
     counter_notes := some "Front entrance" },
   { counter_id := 8, counter_code := "FIRST_WARD",
     counter_name := "First Ward Park", vendor := "TrailTech",
     latitude := 35.232, longitude := -80.836,
     counter_notes := some "North entrance" },
   { counter_id := 9, counter_code := "FOURTH_WARD",
     counter_name := "Fourth Ward Park", vendor := "TrailTech",
     latitude := 35.235, longitude := -80.840,
     counter_notes := some "Main gate" },
   { counter_id := 10, counter_code := "LIGHT_RAIL",
     counter_name := "Lynx Light Rail Station", vendor := "SensorCorp",
     latitude := 35.221, longitude := -80.838,
     counter_notes := some "Platform entrance" }]

/-- `mock_datastreams` (`nmcoast_api.py` lines 237-346).  `datastream_notes`
is never passed, so it takes its `None` default. -/
def mock_datastreams : List Datastream :=
  [{ datastream_id := 1, counter_id := 1, datastream_type := .PEDESTRIAN,
     datastream_name := "Main Gate Pedestrians In",
     datastream_direction := .IN, datastream_notes := none },
   { datastream_id := 2, counter_id := 1, datastream_type := .PEDESTRIAN,
     datastream_name := "Main Gate Pedestrians Out",
     datastream_direction := .OUT, datastream_notes := none },
   { datastream_id := 3, counter_id := 2, datastream_type := .PEDESTRIAN,
     datastream_name := "South Gate Pedestrians In",
     datastream_direction := .IN, datastream_notes := none },
   { datastream_id := 4, counter_id := 3, datastream_type := .COMBINED,
     datastream_name := "Park Entrance Combined",
     datastream_direction := .COMBINED, datastream_notes := none },
   { datastream_id := 5, counter_id := 3, datastream_type := .ROADWAY_CYCLIST,
     datastream_name := "Cyclist Road Entrance",
     datastream_direction := .IN, datastream_notes := none },
   { datastream_id := 6, counter_id := 4, datastream_type := .SIDEWALK_CYCLIST,
     datastream_name := "Trailhead Cyclists",
     datastream_direction := .NORTHBOUND, datastream_notes := none },
   { datastream_id := 7, counter_id := 5, datastream_type := .PEDESTRIAN,
     datastream_name := "Main Park Entrance In",
     datastream_direction := .IN, datastream_notes := none },
   { datastream_id := 8, counter_id := 5, datastream_type := .PEDESTRIAN,
     datastream_name := "Main Park Entrance Out",
     datastream_direction := .OUT, datastream_notes := none },
   { datastream_id := 9, counter_id := 6, datastream_type := .PEDESTRIAN,
     datastream_name := "Main Lobby Entrance In",
     datastream_direction := .IN, datastream_notes := none },
   { datastream_id := 10, counter_id := 7, datastream_type := .PEDESTRIAN,
     datastream_name := "Front Entrance Combined",
     datastream_direction := .COMBINED, datastream_notes := none },
   { datastream_id := 11, counter_id := 8, datastream_type := .PEDESTRIAN,
     datastream_name := "North Entrance In",
     datastream_direction := .IN, datastream_notes := none },
   { datastream_id := 12, counter_id := 9, datastream_type := .PEDESTRIAN,
     datastream_name := "Main Gate Combined",
     datastream_direction := .COMBINED, datastream_notes := none },
   { datastream_id := 13, counter_id := 10, datastream_type := .PEDESTRIAN,
     datastream_name := "Platform Entrance In",
     datastream_direction := .IN, datastream_notes := none },
   { datastream_id := 14, counter_id := 10, datastream_type := .PEDESTRIAN,
     datastream_name := "Platform Entrance Out",
     datastream_direction := .OUT, datastream_notes := none }]

/-- One QA flag name, as drawn by `random.choice(list(flags.keys()))`
(`nmcoast_api.py` line 401). -/
inductive FlagName where
  | maxday
  | maxhour
  | gap
  | zero
  | stat
deriving DecidableEq, Repr

/-- The random draws consumed by one iteration of the `mock_counts`
generation loop (`nmcoast_api.py` lines 361-402), abstracted as an oracle
input.  `preRaw` stands for the value of `raw_count` before the
non-negativity clamp: in the source it is the float-arithmetic combination
of `random.randint(30, 100)`, the time-of-day / weekend / event-day
multipliers and `random.randint(-15, 15)`; `cleaned` stands for
`round(raw_count * random.uniform(0.95, 1.05), 1)`.  Both are abstracted
because Python float arithmetic has no exact shallow embedding, and no
property claimed of the generator depends on their values.  `failedFlag`
is `some f` when `random.random() < 0.15` selected flag `f` to fail
(lines 399-402), `none` otherwise. -/
structure DrawInput where
  preRaw : Int
  cleaned : Rat
  failedFlag : Option FlagName
deriving DecidableEq, Repr

/-- The dates walked by the generation loop: `start_date = 2024-05-27` to
`end_date = 2024-06-05` inclusive, advancing by `timedelta(days=1)`
(`nmcoast_api.py` lines 353-358, 427). -/
def mockDates : List (Nat × Nat × Nat) :=
  [(2024, 5, 27), (2024, 5, 28), (2024, 5, 29), (2024, 5, 30), (2024, 5, 31),
   (2024, 6, 1), (2024, 6, 2), (2024, 6, 3), (2024, 6, 4), (2024, 6, 5)]

/-- `times = [8, 12, 16, 20]` (`nmcoast_api.py` line 355). -/
def mockTimes : List Nat := [8, 12, 16, 20]

/-- The body of one iteration of the generation loop
(`nmcoast_api.py` lines 361-424): clamp the raw count at zero
(lines 384-385), set all five flags to 1 and flip the failed one to 0
(lines 391-402), build the naive `datetime` (lines 405-410) and the `Count`
record (lines 412-423). -/
def mkMockCount (cid : Int) (dsId : Int) (date : Nat × Nat × Nat)
    (hour : Nat) (inp : DrawInput) : Count :=
  let raw : Int := if inp.preRaw < 0 then 0 else inp.preRaw
  let flagVal : FlagName → Int := fun f => if inp.failedFlag = some f then 0 else 1
  { count_id := cid
    datastream_id := dsId
    date_time := ⟨date.1, date.2.1, date.2.2, hour, 0, 0⟩
    raw_count := some raw
    maxday := some (flagVal .maxday)
    maxhour := some (flagVal .maxhour)
    gap := some (flagVal .gap)
    zero := some (flagVal .zero)
    stat := some (flagVal .stat)
    cleaned_count := some inp.cleaned }

/-- The iteration space of the generation loop, in execution order:
days outermost, then datastreams, then the four times of day
(`nmcoast_api.py` lines 357-360). -/
def genTriples : List ((Nat × Nat × Nat) × Datastream × Nat) :=
  mockDates.flatMap fun d =>
    mock_datastreams.flatMap fun ds =>
      mockTimes.map fun h => (d, ds, h)

/-- `mock_counts` (`nmcoast_api.py` lines 348-427), parameterised by the
oracle stream of random draws; `count_id` starts at 100 and is incremented
once per iteration (lines 350, 424). -/
def mock_counts (oracle : Nat → DrawInput) : List Count :=
  genTriples.enum.map fun p =>
    mkMockCount (100 + (p.1 : Int)) p.2.2.1.datastream_id p.2.1 p.2.2.2
      (oracle p.1)

/-- Route handler `get_datastreams_for_counter` of `nmcoast_api.py`
(lines 454-471): 404 when no mock counter carries the requested id,
otherwise the (possibly empty) filtered datastream list. -/
def get_datastreams_for_counter (counter_id : Int) :
    ApiResult (List Datastream) :=
  if !(mock_counters.any fun c => c.counter_id == counter_id) then .err404
  else .ok (mock_datastreams.filter fun d => d.counter_id == counter_id)

/-- Route handler `get_counts_for_datastream` of `nmcoast_api.py`
(lines 473-490): 404 when no mock datastream carries the requested id,
otherwise the (possibly empty) filtered count list. -/
def get_counts_for_datastream (oracle : Nat → DrawInput)
    (datastream_id : Int) : ApiResult (List Count) :=
  if !(mock_datastreams.any fun ds => ds.datastream_id == datastream_id) then
    .err404
  else .ok ((mock_counts oracle).filter fun c => c.datastream_id == datastream_id)

/-- Route paths registered on the FastAPI `app` of `nmcoast_api.py`
(lines 447, 454, 473); there is no `/health` route in this variant. -/
def mockAppRoutes : List String :=
  ["/counters/", "/counters/{counter_id}/datastreams/",
   "/datastreams/{datastream_id}/counts"]

end MockApi

/-! ## `validate_data` (`nmcoast_api_new.py` lines 152-233)

The DataFrame is modelled row-wise: a `Row` is the association list of
column name to cell value, and a frame is a list of rows all sharing the
same columns.  The behaviour of the pandas primitives used by the source
(`replace`, `astype(..., errors='ignore')`, `to_datetime(...,
format='ISO8601', utc=True, errors='coerce')`, `tz_convert`) is embedded
cell-wise below; `pd.to_datetime` parsing itself is external library
behaviour and is passed in as the oracle `parseDT`, returning the UTC
instant of a parseable cell and `none` for an unparseable one. -/

/-- A DataFrame row: column name to cell value. -/
abbrev Row := List (String × CellValue)

/-- The base (non-`None`) type of a Pydantic field annotation, as computed
from `get_args`/`get_origin` in `validate_data` (lines 169-170). -/
inductive BaseType where
  | strT
  | intT
  | floatT
  | dtT
deriving DecidableEq, Repr

/-- One Pydantic field: its base type and whether the annotation is
`Optional[...]`. -/
structure FieldSpec where
  base : BaseType
  optional : Bool
deriving DecidableEq, Repr

/-- A Pydantic model as consumed by `validate_data`: its declared fields in
order (`model.model_fields`) and its row validator (`model.model_validate`
composed with `model_dump`, Pydantic library behaviour, hence a parameter). -/
structure PydModel (R : Type) where
  fields : List (String × FieldSpec)
  modelValidate : Row → Except String R

/-- `TARGET_LOCAL_TZ = 'America/New_York'` (line 156). -/
def TARGET_LOCAL_TZ : String := "America/New_York"

/-- Python `str.lower()`, character-wise (the sources only lower-case ASCII
column names and extensions). -/
def pyLower (s : String) : String :=
  ⟨s.data.map Char.toLower⟩

/-- Python `str.replace(' ', '_')`: the pattern is a single character, so it
is a character-wise substitution. -/
def pyReplaceSpace (s : String) : String :=
  ⟨s.data.map fun c => if c = ' ' then '_' else c⟩

/-- Column-name normalisation `col.lower().replace(' ', '_')`
(lines 162 and 260/279). -/
def normalizeCol (s : String) : String :=
  pyReplaceSpace (pyLower s)

/-- Apply column-name normalisation to one row. -/
def renameCols (r : Row) : Row :=
  r.map fun p => (normalizeCol p.1, p.2)

/-- Read a cell from a row (missing column reads as `None`). -/
def lookupCell (name : String) (r : Row) : CellValue :=
  match r.find? (fun p => p.1 == name) with
  | some p => p.2
  | none => .noneV

/-- Does the frame have this column?  Columns are uniform across rows, so
they are read off the first row; an empty frame has no columns. -/
def dfHasCol (df : List Row) (name : String) : Bool :=
  match df with
  | [] => false
  | r :: _ => r.any fun p => p.1 == name

/-- `df[field_name] = None` for a fresh column (line 166). -/
def addCol (name : String) (v : CellValue) (df : List Row) : List Row :=
  df.map fun r => r ++ [(name, v)]

/-- The values of one column, in row order. -/
def getColumn (name : String) (df : List Row) : List CellValue :=
  df.map (lookupCell name)

/-- Overwrite one cell of a row. -/
def setCell (name : String) (v : CellValue) (r : Row) : Row :=
  r.map fun p => if p.1 == name then (p.1, v) else p

/-- Overwrite one column of the frame with the given values (row order). -/
def setColumn (name : String) (vals : List CellValue) (df : List Row) : List Row :=
  df.zipWith (fun r v => setCell name v r) vals

/-- Python `str(...)` as applied by `astype(str)`; the exact rendering of
non-string cells is irrelevant to every property proved below, except that
float `nan` renders as `"nan"` and `None` as `"None"` (the sentinel strings
the source replaces on line 175). -/
def pyStr : CellValue → String
  | .intV n => toString n
  | .floatV q => toString q
  | .strV s => s
  | .dtV i tz => toString i ++ tz
  | .nanV => "nan"
  | .natV => "NaT"
  | .infV => "inf"
  | .ninfV => "-inf"
  | .noneV => "None"

/-- String-field coercion (lines 172-177): `astype(str)`, then for optional
fields replace the sentinel strings by `None` (the `pd.NA`/`np.nan` keys of
the replace dict are dead after `astype(str)`); for required fields
`fillna('')` is a no-op after `astype(str)`. -/
def strColCoerce (optional : Bool) (col : List CellValue) : List CellValue :=
  let col := col.map fun v => CellValue.strV (pyStr v)
  if optional then
    col.map fun v =>
      if v = .strV "nan" ∨ v = .strV "" ∨ v = .strV "None" then .noneV else v
  else col

/-- All-or-nothing cell conversion: `astype(..., errors='ignore')` converts
the whole column, and on any failure leaves the whole column unchanged. -/
def mapAllOrNone (f : α → Option α) : List α → Option (List α)
  | [] => some []
  | x :: xs =>
    match f x, mapAllOrNone f xs with
    | some y, some ys => some (y :: ys)
    | _, _ => none

/-- `astype(..., errors='ignore')` at column level. -/
def astypeIgnore (f : CellValue → Option CellValue) (col : List CellValue) :
    List CellValue :=
  (mapAllOrNone f col).getD col

/-- One cell under `astype('Int64')`: ints stay, integral floats narrow,
missing values become nullable `<NA>`; anything else fails the cast. -/
def toInt64Cell : CellValue → Option CellValue
  | .intV n => some (.intV n)
  | .floatV q => if q.den = 1 then some (.intV q.num) else none
  | .noneV => some .noneV
  | .nanV => some .noneV
  | _ => none

/-- One cell under `astype(int)`: missing values fail the cast. -/
def toIntCell : CellValue → Option CellValue
  | .intV n => some (.intV n)
  | .floatV q => if q.den = 1 then some (.intV q.num) else none
  | _ => none

/-- One cell under `astype(float)`: note that `None` becomes float `NaN`
again (a float column cannot hold `None`). -/
def toFloatCell : CellValue → Option CellValue
  | .intV n => some (.floatV n)
  | .floatV q => some (.floatV q)
  | .noneV => some .nanV
  | .nanV => some .nanV
  | .infV => some .infV
  | .ninfV => some .ninfV
  | _ => none

/-- Numeric-field coercion (lines 179-188).  Optional: replace
`[np.nan, pd.NaT, inf, -inf]` by `None` (line 181), then
`astype('Int64'/float, errors='ignore')`.  Required: replace `[inf, -inf]`
by `NaN` (line 187), then `astype(base_type, errors='ignore')`. -/
def numColCoerce (isInt : Bool) (optional : Bool) (col : List CellValue) :
    List CellValue :=
  if optional then
    let col := col.map fun v =>
      if v = .nanV ∨ v = .natV ∨ v = .infV ∨ v = .ninfV then .noneV else v
    if isInt then astypeIgnore toInt64Cell col else astypeIgnore toFloatCell col
  else
    let col := col.map fun v =>
      if v = .infV ∨ v = .ninfV then .nanV else v
    if isInt then astypeIgnore toIntCell col else astypeIgnore toFloatCell col

/-- Datetime-field coercion (lines 190-211): parse the whole column with
`pd.to_datetime(..., format='ISO8601', utc=True, errors='coerce')`; write
the successfully parsed values back converted to `TARGET_LOCAL_TZ`
(`df.loc[valid_dt_indices, field_name] = ...tz_convert(...)`, line 203 —
only the *valid* indices are written, so a cell that failed to parse keeps
its original value); finally `replace({pd.NaT: None})` (line 211) turns the
remaining missing values (`NaT`/`NaN`/`None`, which pandas `replace` treats
interchangeably) into `None` — but leaves unparseable non-missing values,
such as malformed strings, untouched. -/
def dtColCoerce (parseDT : CellValue → Option Int) (col : List CellValue) :
    List CellValue :=
  col.map fun v =>
    match parseDT v with
    | some t => .dtV t TARGET_LOCAL_TZ
    | none => if v = .nanV ∨ v = .natV ∨ v = .noneV then .noneV else v

/-- Per-field column coercion dispatch (lines 169-211). -/
def coerceField (parseDT : CellValue → Option Int) (fs : FieldSpec)
    (col : List CellValue) : List CellValue :=
  match fs.base with
  | .strT => strColCoerce fs.optional col
  | .intT => numColCoerce true fs.optional col
  | .floatT => numColCoerce false fs.optional col
  | .dtT => dtColCoerce parseDT col

/-- The field loop of `validate_data` (lines 164-211): for each declared
field in order, insert a `None` column if it is missing, otherwise coerce
it in place. -/
def applyFieldCoercions (parseDT : CellValue → Option Int)
    (fields : List (String × FieldSpec)) (df : List Row) : List Row :=
  fields.foldl
    (fun df p =>
      if dfHasCol df p.1 then
        setColumn p.1 (coerceField parseDT p.2 (getColumn p.1 df)) df
      else addCol p.1 .noneV df)
    df

/-- `df_to_validate = df[list(model_fields.keys())]` (line 213): restrict a
row to the model's fields, in field order. -/
def projectRow (fields : List (String × FieldSpec)) (r : Row) : Row :=
  fields.map fun p => (p.1, lookupCell p.1 r)

/-- The row dictionaries handed to `model.model_validate` (lines 162-214):
normalise column names, run the field-coercion loop, project onto the model
fields. -/
def validationInputs (parseDT : CellValue → Option Int) {R : Type}
    (pm : PydModel R) (df : List Row) : List Row :=
  (applyFieldCoercions parseDT pm.fields (df.map renameCols)).map
    (projectRow pm.fields)

/-- The validation loop (lines 214-223): validate each row in order,
accumulating validated records and per-row error messages. -/
def validateLoop {R : Type} (validate : Row → Except String R) :
    Nat → List Row → List R × List String
  | _, [] => ([], [])
  | idx, r :: rs =>
    let rest := validateLoop validate (idx + 1) rs
    match validate r with
    | .ok v => (v :: rest.1, rest.2)
    | .error e =>
      (rest.1,
       ("Row " ++ toString (idx + 2) ++ " failed validation: " ++ e) :: rest.2)

/-- `validate_data` (lines 152-233): coerce the frame, validate every row,
and raise (`.error`, carrying the collected per-row messages that the
source logs before raising its summary `ValueError`) when any row failed;
otherwise return the validated records.  `file_path` and `chunk_info` only
decorate the log/raise messages in the source. -/
def validate_data (parseDT : CellValue → Option Int) {R : Type}
    (pm : PydModel R) (df : List Row) (file_path : String)
    (chunk_info : Option String) : Except (List String) (List R) :=
  let _ := (file_path, chunk_info)
  let rows := validationInputs parseDT pm df
  let out := validateLoop pm.modelValidate 0 rows
  if out.2 = [] then .ok out.1 else .error out.2

/-! ## `load_data` (`nmcoast_api_new.py` lines 236-297)

`load_data` is modelled as a function from the engine, the file path and
the file's parsed tabular contents to the trace of I/O events it performs
(chunk reads and `to_sql` writes, in order) together with `none` on normal
return or `some msg` when it raises.  Database state is recovered from the
event trace by `applyEvents`. -/

/-- Index of the last occurrence of a character in a list. -/
def lastIdxOf (c : Char) : List Char → Option Nat
  | [] => none
  | x :: xs =>
    match lastIdxOf c xs with
    | some i => some (i + 1)
    | none => if x = c then some 0 else none

/-- `os.path.splitext` (posix): split at the last dot of the final path
component, unless that component consists only of leading dots up to it. -/
def splitext (p : String) : String × String :=
  let cs := p.data
  match lastIdxOf '.' cs with
  | none => (p, "")
  | some d =>
    let s := match lastIdxOf '/' cs with
      | none => 0
      | some i => i + 1
    if d < s then (p, "")
    else if ((cs.drop s).take (d - s)).any (fun c => c ≠ '.') then
      (⟨cs.take d⟩, ⟨cs.drop d⟩)
    else (p, "")

/-- Worker for `chunkList`, structurally recursive on a fuel bound on the
number of chunks (any fuel at least the list length is enough). -/
def chunkChop (n : Nat) : Nat → List α → List (List α)
  | _, [] => []
  | 0, x :: xs => [x :: xs]
  | fuel + 1, x :: xs =>
    match n with
    | 0 => [x :: xs]
    | m + 1 => (x :: xs).take (m + 1) :: chunkChop (m + 1) fuel ((x :: xs).drop (m + 1))

/-- Slice a list into consecutive chunks of `n` elements (the last chunk may
be shorter), as `pd.read_csv(..., chunksize=n)` yields the file's rows. -/
def chunkList (n : Nat) (l : List α) : List (List α) :=
  chunkChop n l.length l

/-- `file_extension = os.path.splitext(file_path)[1].lower()` (lines 246-247). -/
def fileExtension (p : String) : String :=
  pyLower (splitext p).2

/-- `if_exists` mode of a `DataFrame.to_sql` call. -/
inductive WriteMode where
  | replace
  | append
deriving DecidableEq, Repr

/-- One observable I/O action of `load_data`: reading a CSV chunk, reading
a whole Excel file, or a `to_sql` write of validated records. -/
inductive LoadEvent (R : Type) where
  | readCsvChunk (rows : List Row)
  | readExcel (rows : List Row)
  | write (table : String) (mode : WriteMode) (records : List R)
deriving DecidableEq, Repr

/-- The CSV chunk loop of `load_data` (lines 254-275): for the `i`-th chunk,
normalise column names (line 260), validate (line 262; a validation error
propagates out of the loop, keeping earlier chunks' writes), and when the
validated frame is non-empty write it with `if_exists='replace'` for `i = 0`
and `'append'` otherwise (lines 264-270). -/
def csvGo (parseDT : CellValue → Option Int) {R : Type} (pm : PydModel R)
    (table_name file_path : String) :
    Nat → List (List Row) → List (LoadEvent R) × Option String
  | _, [] => ([], none)
  | i, c :: cs =>
    let c' := c.map renameCols
    match validate_data parseDT pm c' file_path (some ("Chunk " ++ toString (i + 1))) with
    | .error _ =>
      ([.readCsvChunk c], some "Data validation failed for some rows. See logs above.")
    | .ok recs =>
      let tail := csvGo parseDT pm table_name file_path (i + 1) cs
      if recs.isEmpty then (.readCsvChunk c :: tail.1, tail.2)
      else
        (.readCsvChunk c ::
           .write table_name (if i = 0 then .replace else .append) recs :: tail.1,
         tail.2)

/-- `load_data` (lines 236-297).  `engine` is `None` or an engine handle
(its identity is irrelevant, only its presence is checked); `fileRows` is
the tabular content the file parses to; the result
is the event trace plus `none` on normal return / `some msg` on a raise.
Guards in source order: missing engine (lines 243-244), unsupported
extension after `os.path.splitext(...).lower()` (lines 246-250); then the
CSV chunk loop with `chunk_size = 100000` (lines 254-275) or the one-shot
Excel load with a single `if_exists='replace'` write when the validated
frame is non-empty (lines 276-295). -/
def load_data (parseDT : CellValue → Option Int) (file_path : String)
    {R : Type} (pm : PydModel R) (table_name : String) (engine : Option Unit)
    (fileRows : List Row) : List (LoadEvent R) × Option String :=
  match engine with
  | none => ([], some "Database engine must be provided for data loading.")
  | some _ =>
    let file_extension := fileExtension file_path
    if file_extension ∉ [".csv", ".xlsx", ".xls"] then
      ([], some "Unsupported file type. Must be .csv, .xlsx, or .xls.")
    else if file_extension = ".csv" then
      csvGo parseDT pm table_name file_path 0 (chunkList 100000 fileRows)
    else
      let rows' := fileRows.map renameCols
      match validate_data parseDT pm rows' file_path none with
      | .error _ =>
        ([.readExcel fileRows],
         some "Data validation failed for some rows. See logs above.")
      | .ok recs =>
        if recs.isEmpty then ([.readExcel fileRows], none)
        else ([.readExcel fileRows, .write table_name .replace recs], none)

/-- A database as a list of named tables. -/
abbrev Db (R : Type) := List (String × List R)

/-- Rows of one table (`[]` when absent). -/
def dbGetTable {R : Type} (db : Db R) (t : String) : List R :=
  match db.find? (fun p => p.1 == t) with
  | some p => p.2
  | none => []

/-- Replace (or create) one table's rows. -/
def dbSetTable {R : Type} (db : Db R) (t : String) (recs : List R) : Db R :=
  if db.any (fun p => p.1 == t) then
    db.map fun p => if p.1 == t then (t, recs) else p
  else db ++ [(t, recs)]

/-- Database effect of one `load_data` event: reads leave the database
unchanged; `to_sql(..., if_exists='replace')` overwrites the table and
`'append'` extends it. -/
def applyEvent {R : Type} (db : Db R) : LoadEvent R → Db R
  | .readCsvChunk _ => db
  | .readExcel _ => db
  | .write t .replace recs => dbSetTable db t recs
  | .write t .append recs => dbSetTable db t (dbGetTable db t ++ recs)

/-- Database state after a trace of `load_data` events. -/
def applyEvents {R : Type} (db : Db R) (evs : List (LoadEvent R)) : Db R :=
  evs.foldl applyEvent db

/-- The write modes occurring in an event trace, in order. -/
def writeModes {R : Type} : List (LoadEvent R) → List WriteMode
  | [] => []
  | .write _ m _ :: es => m :: writeModes es
  | .readCsvChunk _ :: es => writeModes es
  | .readExcel _ :: es => writeModes es

/-- The chunk reads occurring in an event trace, in order. -/
def readChunks {R : Type} : List (LoadEvent R) → List (List Row)
  | [] => []
  | .readCsvChunk c :: es => c :: readChunks es
  | .write _ _ _ :: es => readChunks es
  | .readExcel _ :: es => readChunks es

/-! ## Concrete sample values

Small concrete instances used to evaluate the embedded functions on
specific inputs (taken, where possible, from the `json_schema_extra`
examples in the sources). -/

/-- The example `Count` of the sources' `json_schema_extra`
(`nmcoast_api_new.py` lines 135-148), with `date_time` at its UTC fields. -/
def sampleCount : Count :=
  { count_id := 101, datastream_id := 45,
    date_time := ⟨2024, 3, 15, 8, 0, 0⟩,
    raw_count := some 150, maxday := some 0, maxhour := some 0,
    gap := some 0, zero := some 0, stat := some 1, cleaned_count := none }

/-- A `Count` whose `maxday` flag is 7: accepted by the `Count` model, whose
QA flags are plain `Optional[int]` fields. -/
def sevenFlagCount : Count :=
  { sampleCount with maxday := some 7 }

/-- The example `Counter` of `nmcoast_api_new.py` (lines 60-71). -/
def sampleCounter : Counter :=
  { counter_id := 12, counter_code := "MAIN_ENTRANCE",
    counter_name := "Main Building Entrance Counter",
    vendor := "Acme Solutions Inc.", vendor_site_id := "24001",
    latitude := 34.052235, longitude := -118.243683,
    counter_notes := some "" }

/-- A one-field Pydantic model (a required int column `a`) used to exercise
`validate_data`/`load_data` on concrete frames. -/
def pmInt : PydModel Int :=
  { fields := [("a", ⟨.intT, false⟩)],
    modelValidate := fun r =>
      match lookupCell "a" r with
      | .intV n => .ok n
      | _ => .error "value is not an integer" }

/-- A one-field Pydantic model (a required datetime column `date_time`)
used to exercise the datetime coercion of `validate_data`. -/
def pmDateTime : PydModel Unit :=
  { fields := [("date_time", ⟨.dtT, false⟩)],
    modelValidate := fun _ => .ok () }

/-- A sample `pd.to_datetime(..., format='ISO8601', utc=True,
errors='coerce')` oracle: it parses exactly the string
`"2024-06-01T00:00:00Z"` (to its Unix instant) and nothing else. -/
def parseDTex : CellValue → Option Int :=
  fun v => if v = .strV "2024-06-01T00:00:00Z" then some 1717200000 else none

/-- A trivial datetime-parse oracle for models without datetime fields. -/
def parseDTnone : CellValue → Option Int := fun _ => none

/-- A frame for `pmInt` whose single row validates. -/
def dfIntOk : List Row := [[("A", .intV 3)]]

/-- A frame for `pmInt` whose single row fails validation (a non-numeric
string in a required int column survives coercion). -/
def dfIntBad : List Row := [[("A", .strV "oops")]]

/-- A frame for `pmDateTime` with one parseable ISO string, one unparseable
string and one missing value. -/
def dfDates : List Row :=
  [[("Date Time", .strV "2024-06-01T00:00:00Z")],
   [("Date Time", .strV "hello")],
   [("Date Time", .natV)]]

/-- An oracle of draws for the mock-count generator: no flag failure. -/
def oracleA : Nat → MockApi.DrawInput :=
  fun _ => { preRaw := 5, cleaned := 1, failedFlag := none }

/-- An oracle of draws for the mock-count generator: every iteration fails
the `stat` flag and draws a negative pre-clamp raw count. -/
def oracleB : Nat → MockApi.DrawInput :=
  fun _ => { preRaw := -3, cleaned := 0, failedFlag := some .stat }

/-- A sample `Datastream` row of the SQLite-backed variant's model. -/
def sampleNewDatastream : Datastream :=
  { datastream_id := 1, counter_id := 1, datastream_type := .PEDESTRIAN,
    datastream_name := "Main Gate Pedestrians In",
    datastream_direction := .IN, datastream_notes := none }

/-- The first mock datastream (`datastream_id = 1`). -/
def firstMockDatastream : MockApi.Datastream :=
  { datastream_id := 1, counter_id := 1, datastream_type := .PEDESTRIAN,
    datastream_name := "Main Gate Pedestrians In",
    datastream_direction := .IN, datastream_notes := none }

/-- The first generated mock count under `oracleA`. -/
def firstMockCountA : Count :=
  MockApi.mkMockCount (100 + ((0 : Nat) : Int)) 1 (2024, 5, 27) 8 (oracleA 0)

/-- The first generated mock count under `oracleB`. -/
def firstMockCountB : Count :=
  MockApi.mkMockCount (100 + ((0 : Nat) : Int)) 1 (2024, 5, 27) 8 (oracleB 0)

/-- The error list produced by `validate_data` on `dfIntBad`. -/
def esIntBad : List String :=
  ["Row " ++ toString (0 + 2) ++ " failed validation: " ++ "value is not an integer"]

/-! ## Helper lemmas -/

theorem mapAllOrNone_length {α : Type} (f : α → Option α) :
    ∀ {l l' : List α}, mapAllOrNone f l = some l' → l'.length = l.length := by
  intro l
  induction l with
  | nil => intro l' h; simp [mapAllOrNone] at h; simp [← h]
  | cons x xs ih =>
    intro l' h
    simp only [mapAllOrNone] at h
    cases hf : f x with
    | none => rw [hf] at h; simp at h
    | some y =>
      rw [hf] at h
      cases hr : mapAllOrNone f xs with
      | none => rw [hr] at h; simp at h
      | some ys =>
        rw [hr] at h
        simp only [Option.some.injEq] at h
        subst h
        simp [ih hr]

theorem astypeIgnore_length (f : CellValue → Option CellValue)
    (col : List CellValue) : (astypeIgnore f col).length = col.length := by
  unfold astypeIgnore
  cases h : mapAllOrNone f col with
  | none => simp
  | some c => simpa using mapAllOrNone_length f h

theorem strColCoerce_length (opt : Bool) (col : List CellValue) :
    (strColCoerce opt col).length = col.length := by
  unfold strColCoerce
  cases opt <;> simp

theorem numColCoerce_length (isInt opt : Bool) (col : List CellValue) :
    (numColCoerce isInt opt col).length = col.length := by
  unfold numColCoerce
  cases opt <;> cases isInt <;> simp [astypeIgnore_length]

theorem dtColCoerce_length (parseDT : CellValue → Option Int)
    (col : List CellValue) : (dtColCoerce parseDT col).length = col.length := by
  unfold dtColCoerce; simp

theorem coerceField_length (parseDT : CellValue → Option Int) (fs : FieldSpec)
    (col : List CellValue) : (coerceField parseDT fs col).length = col.length := by
  unfold coerceField
  cases fs.base <;>
    simp [strColCoerce_length, numColCoerce_length, dtColCoerce_length]

theorem getColumn_length (name : String) (df : List Row) :
    (getColumn name df).length = df.length := by
  unfold getColumn; simp

theorem setColumn_length (name : String) (vals : List CellValue) (df : List Row)
    (h : vals.length = df.length) : (setColumn name vals df).length = df.length := by
  unfold setColumn
  simp [List.length_zipWith, h]

theorem addCol_length (name : String) (v : CellValue) (df : List Row) :
    (addCol name v df).length = df.length := by
  unfold addCol; simp

theorem applyFieldCoercions_length (parseDT : CellValue → Option Int)
    (fields : List (String × FieldSpec)) :
    ∀ df : List Row, (applyFieldCoercions parseDT fields df).length = df.length := by
  induction fields with
  | nil => intro df; simp [applyFieldCoercions]
  | cons p ps ih =>
    intro df
    simp only [applyFieldCoercions, List.foldl_cons] at *
    rw [ih]
    by_cases h : dfHasCol df p.1 = true
    · simp only [h, if_true]
      exact setColumn_length _ _ _
        ((coerceField_length _ _ _).trans (getColumn_length _ _))
    · simp only [h]
      simp [addCol_length]

theorem validationInputs_length (parseDT : CellValue → Option Int) {R : Type}
    (pm : PydModel R) (df : List Row) :
    (validationInputs parseDT pm df).length = df.length := by
  unfold validationInputs
  rw [List.length_map, applyFieldCoercions_length, List.length_map]

theorem validateLoop_errors_nil_iff {R : Type} (v : Row → Except String R) :
    ∀ (idx : Nat) (rows : List Row),
      (validateLoop v idx rows).2 = [] ↔ ∀ r ∈ rows, (v r).isOk = true := by
  intro idx rows
  induction rows generalizing idx with
  | nil => simp [validateLoop]
  | cons r rs ih =>
    simp only [validateLoop]
    cases hv : v r with
    | ok x =>
      simp only [List.mem_cons]
      constructor
      · intro h y hy
        rcases hy with rfl | hy
        · rw [hv]; rfl
        · exact ((ih (idx + 1)).mp h) y hy
      · intro h
        exact (ih (idx + 1)).mpr fun y hy => h y (Or.inr hy)
    | error e =>
      constructor
      · intro h; cases h
      · intro h
        have hr := h r (List.mem_cons_self r rs)
        rw [hv] at hr
        cases hr

theorem validateLoop_records_of_ok {R : Type} (v : Row → Except String R) :
    ∀ (idx : Nat) (rows : List Row),
      (∀ r ∈ rows, (v r).isOk = true) →
      rows.map v = ((validateLoop v idx rows).1).map Except.ok := by
  intro idx rows
  induction rows generalizing idx with
  | nil => simp [validateLoop]
  | cons r rs ih =>
    intro h
    have hr := h r (List.mem_cons_self r rs)
    cases hv : v r with
    | error e => rw [hv] at hr; cases hr
    | ok x =>
      simp only [validateLoop, hv, List.map_cons]
      rw [ih (idx + 1) fun y hy => h y (List.mem_cons_of_mem _ hy)]

theorem validateLoop_errors_length {R : Type} (v : Row → Except String R) :
    ∀ (idx : Nat) (rows : List Row),
      (validateLoop v idx rows).2.length = rows.countP (fun r => !(v r).isOk) := by
  intro idx rows
  induction rows generalizing idx with
  | nil => simp [validateLoop]
  | cons r rs ih =>
    simp only [validateLoop, List.countP_cons]
    cases hv : v r with
    | ok x =>
      have hb : (!(v r).isOk) = false := by rw [hv]; rfl
      have hok : (Except.ok x : Except String R).isOk = true := rfl
      simp [hv, hb, hok, ih (idx + 1)]
    | error e =>
      have hb : (!(v r).isOk) = true := by rw [hv]; rfl
      have herr : (Except.error e : Except String R).isOk = false := rfl
      simp [hv, hb, herr, ih (idx + 1)]

theorem validate_data_isOk_iff (parseDT : CellValue → Option Int) {R : Type}
    (pm : PydModel R) (df : List Row) (fp : String) (ci : Option String) :
    (validate_data parseDT pm df fp ci).isOk = true ↔
      ∀ r ∈ validationInputs parseDT pm df, (pm.modelValidate r).isOk = true := by
  unfold validate_data
  by_cases h : (validateLoop pm.modelValidate 0 (validationInputs parseDT pm df)).2 = []
  · simp only [h, if_true]
    constructor
    · intro _
      exact (validateLoop_errors_nil_iff pm.modelValidate 0 _).mp h
    · intro _; rfl
  · simp only [if_neg h]
    constructor
    · intro hk; exact Bool.noConfusion hk
    · intro hk
      exact absurd ((validateLoop_errors_nil_iff pm.modelValidate 0 _).mpr hk) h

theorem validate_data_ok_spec (parseDT : CellValue → Option Int) {R : Type}
    (pm : PydModel R) (df : List Row) (fp : String) (ci : Option String)
    (recs : List R) (h : validate_data parseDT pm df fp ci = .ok recs) :
    (validationInputs parseDT pm df).map pm.modelValidate = recs.map Except.ok := by
  have hok : (validate_data parseDT pm df fp ci).isOk = true := by rw [h]; rfl
  have hall := (validate_data_isOk_iff parseDT pm df fp ci).mp hok
  unfold validate_data at h
  by_cases h2 : (validateLoop pm.modelValidate 0 (validationInputs parseDT pm df)).2 = []
  · simp only [h2, if_true] at h
    cases h
    exact validateLoop_records_of_ok pm.modelValidate 0 _ hall
  · simp only [if_neg h2] at h
    cases h

theorem validate_data_error_spec (parseDT : CellValue → Option Int) {R : Type}
    (pm : PydModel R) (df : List Row) (fp : String) (ci : Option String)
    (es : List String) (h : validate_data parseDT pm df fp ci = .error es) :
    es.length =
      (validationInputs parseDT pm df).countP (fun r => !(pm.modelValidate r).isOk) := by
  unfold validate_data at h
  by_cases h2 : (validateLoop pm.modelValidate 0 (validationInputs parseDT pm df)).2 = []
  · simp only [h2, if_true] at h
    cases h
  · simp only [if_neg h2] at h
    cases h
    exact validateLoop_errors_length pm.modelValidate 0 _

theorem validate_data_ok_length (parseDT : CellValue → Option Int) {R : Type}
    (pm : PydModel R) (df : List Row) (fp : String) (ci : Option String)
    (recs : List R) (h : validate_data parseDT pm df fp ci = .ok recs) :
    recs.length = df.length := by
  have hmap := validate_data_ok_spec parseDT pm df fp ci recs h
  have hlen : (validationInputs parseDT pm df).length = recs.length := by
    have := congrArg List.length hmap
    simpa using this
  rw [← hlen, validationInputs_length]

theorem chunkChop_flatten {α : Type} (n : Nat) :
    ∀ (fuel : Nat) (l : List α), l.length ≤ fuel + 1 →
      (chunkChop n fuel l).flatten = l := by
  intro fuel
  induction fuel generalizing n with
  | zero =>
    intro l hl
    cases l with
    | nil => simp [chunkChop]
    | cons x xs => simp [chunkChop]
  | succ f ih =>
    intro l hl
    cases l with
    | nil => simp [chunkChop]
    | cons x xs =>
      cases n with
      | zero => simp [chunkChop]
      | succ m =>
        simp only [chunkChop, List.flatten_cons]
        rw [ih (m + 1) _ ?_]
        · exact List.take_append_drop _ _
        · simp only [List.length_drop, List.length_cons] at hl ⊢
          omega

theorem chunkList_flatten {α : Type} (n : Nat) (l : List α) :
    (chunkList n l).flatten = l :=
  chunkChop_flatten n l.length l (by omega)

theorem chunkChop_ne_nil {α : Type} (n : Nat) :
    ∀ (fuel : Nat) (l : List α) (c : List α), c ∈ chunkChop n fuel l → c ≠ [] := by
  intro fuel
  induction fuel generalizing n with
  | zero =>
    intro l c hc
    cases l with
    | nil => simp [chunkChop] at hc
    | cons x xs =>
      simp only [chunkChop, List.mem_singleton] at hc
      subst hc; simp
  | succ f ih =>
    intro l c hc
    cases l with
    | nil => simp [chunkChop] at hc
    | cons x xs =>
      cases n with
      | zero =>
        simp only [chunkChop, List.mem_singleton] at hc
        subst hc; simp
      | succ m =>
        simp only [chunkChop, List.mem_cons] at hc
        rcases hc with rfl | hc
        · simp
        · exact ih (m + 1) _ c hc

theorem chunkList_ne_nil {α : Type} (n : Nat) (l : List α) (c : List α)
    (hc : c ∈ chunkList n l) : c ≠ [] :=
  chunkChop_ne_nil n l.length l c hc

theorem chunkChop_length_le {α : Type} (n : Nat) :
    ∀ (fuel : Nat) (l : List α) (c : List α),
      c ∈ chunkChop n fuel l → l.length ≤ fuel + 1 → n ≠ 0 → c.length ≤ n := by
  intro fuel
  induction fuel generalizing n with
  | zero =>
    intro l c hc hl hn
    cases l with
    | nil => simp [chunkChop] at hc
    | cons x xs =>
      simp only [chunkChop, List.mem_singleton] at hc
      subst hc
      simp only [List.length_cons] at hl ⊢
      omega
  | succ f ih =>
    intro l c hc hl hn
    cases l with
    | nil => simp [chunkChop] at hc
    | cons x xs =>
      cases n with
      | zero => exact absurd rfl hn
      | succ m =>
        simp only [chunkChop, List.mem_cons] at hc
        rcases hc with rfl | hc
        · simp
        · refine ih (m + 1) _ c hc ?_ (by omega)
          simp only [List.length_drop, List.length_cons] at hl ⊢
          omega

theorem chunkList_length_le {α : Type} (n : Nat) (l : List α) (c : List α)
    (hc : c ∈ chunkList n l) (hn : n ≠ 0) : c.length ≤ n :=
  chunkChop_length_le n l.length l c hc (by omega) hn

theorem validate_data_ci_irrel (parseDT : CellValue → Option Int) {R : Type}
    (pm : PydModel R) (df : List Row) (fp : String) (ci ci' : Option String) :
    validate_data parseDT pm df fp ci = validate_data parseDT pm df fp ci' := rfl

theorem csvGo_ok_spec (parseDT : CellValue → Option Int) {R : Type}
    (pm : PydModel R) (tn fp : String) :
    ∀ (cs : List (List Row)) (i : Nat),
      (∀ c ∈ cs, c ≠ []) →
      (∀ c ∈ cs, (validate_data parseDT pm (c.map renameCols) fp none).isOk = true) →
      (csvGo parseDT pm tn fp i cs).2 = none ∧
      readChunks (csvGo parseDT pm tn fp i cs).1 = cs ∧
      writeModes (csvGo parseDT pm tn fp i cs).1 =
        (List.range cs.length).map
          (fun j => if i + j = 0 then WriteMode.replace else WriteMode.append) := by
  intro cs
  induction cs with
  | nil => intro i _ _; simp [csvGo, readChunks, writeModes]
  | cons c cs ih =>
    intro i hne hok
    have hcv := hok c (List.mem_cons_self c cs)
    cases hv : validate_data parseDT pm (c.map renameCols) fp
        (some ("Chunk " ++ toString (i + 1))) with
    | error e =>
      rw [validate_data_ci_irrel parseDT pm _ fp none (some ("Chunk " ++ toString (i + 1))),
        hv] at hcv
      cases hcv
    | ok recs =>
      have hlen : recs.length = (c.map renameCols).length :=
        validate_data_ok_length parseDT pm _ fp _ recs hv
      have hcne : c ≠ [] := hne c (List.mem_cons_self c cs)
      have hrne : recs.isEmpty = false := by
        rw [List.isEmpty_eq_false_iff_exists_mem]
        rcases recs with _ | ⟨r, rs⟩
        · exfalso
          rw [List.length_map] at hlen
          rcases c with _ | _
          · exact hcne rfl
          · simp at hlen
        · exact ⟨r, List.mem_cons_self r rs⟩
      obtain ⟨ht2, hrd, hwm⟩ :=
        ih (i + 1) (fun x hx => hne x (List.mem_cons_of_mem _ hx))
          (fun x hx => hok x (List.mem_cons_of_mem _ hx))
      simp only [csvGo, hv, hrne, Bool.false_eq_true, if_false]
      refine ⟨ht2, ?_, ?_⟩
      · simp only [readChunks]
        rw [hrd]
      · simp only [writeModes, List.length_cons, List.range_succ_eq_map,
          List.map_cons, List.map_map]
        congr 1
        rw [hwm]
        apply List.map_congr_left
        intro j _
        simp only [Function.comp_apply, Nat.succ_eq_add_one]
        have h2 : ¬ (i + 1 + j = 0) := by omega
        rw [if_neg h2]
        split
        · omega
        · rfl

theorem load_data_engine_none (parseDT : CellValue → Option Int) {R : Type}
    (pm : PydModel R) (fp tn : String) (rows : List Row) :
    load_data parseDT fp pm tn none rows =
      ([], some "Database engine must be provided for data loading.") := rfl

theorem load_data_bad_ext (parseDT : CellValue → Option Int) {R : Type}
    (pm : PydModel R) (fp tn : String) (rows : List Row)
    (h : fileExtension fp ∉ [".csv", ".xlsx", ".xls"]) :
    load_data parseDT fp pm tn (some ()) rows =
      ([], some "Unsupported file type. Must be .csv, .xlsx, or .xls.") := by
  unfold load_data
  simp [h]

theorem load_data_csv_eq (parseDT : CellValue → Option Int) {R : Type}
    (pm : PydModel R) (fp tn : String) (rows : List Row)
    (h : fileExtension fp = ".csv") :
    load_data parseDT fp pm tn (some ()) rows =
      csvGo parseDT pm tn fp 0 (chunkList 100000 rows) := by
  unfold load_data
  simp [h]

theorem load_data_excel_eq (parseDT : CellValue → Option Int) {R : Type}
    (pm : PydModel R) (fp tn : String) (rows : List Row)
    (h : fileExtension fp = ".xlsx" ∨ fileExtension fp = ".xls")
    (recs : List R)
    (hv : validate_data parseDT pm (rows.map renameCols) fp none = .ok recs) :
    load_data parseDT fp pm tn (some ()) rows =
      (if recs.isEmpty then [LoadEvent.readExcel rows]
       else [LoadEvent.readExcel rows, .write tn .replace recs], none) := by
  unfold load_data
  rcases h with h | h <;> simp [h, hv] <;> split <;> simp

theorem validate_data_error_ne_nil (parseDT : CellValue → Option Int) {R : Type}
    (pm : PydModel R) (df : List Row) (fp : String) (ci : Option String)
    (es : List String) (h : validate_data parseDT pm df fp ci = .error es) :
    es ≠ [] := by
  unfold validate_data at h
  by_cases h2 : (validateLoop pm.modelValidate 0 (validationInputs parseDT pm df)).2 = []
  · simp only [h2, if_true] at h
    cases h
  · simp only [if_neg h2] at h
    cases h
    exact h2

theorem mem_of_mem_enum {α : Type} {p : Nat × α} {l : List α}
    (h : p ∈ l.enum) : p.2 ∈ l := by
  rw [List.mem_enum_iff_getElem?] at h
  obtain ⟨hi, heq⟩ := List.getElem?_eq_some.mp h
  rw [← heq]
  exact List.getElem_mem hi

theorem genTriples_ds_mem (t : (Nat × Nat × Nat) × MockApi.Datastream × Nat)
    (h : t ∈ MockApi.genTriples) : t.2.1 ∈ MockApi.mock_datastreams := by
  simp only [MockApi.genTriples, List.mem_flatMap, List.mem_map] at h
  obtain ⟨d, _, ds, hds, hr, _, heq⟩ := h
  rw [← heq]
  exact hds

theorem mock_counts_mem {oracle : Nat → MockApi.DrawInput} {cnt : Count}
    (h : cnt ∈ MockApi.mock_counts oracle) :
    ∃ (k : Nat) (t : (Nat × Nat × Nat) × MockApi.Datastream × Nat),
      t ∈ MockApi.genTriples ∧
      cnt = MockApi.mkMockCount (100 + (k : Int)) t.2.1.datastream_id t.1 t.2.2
        (oracle k) := by
  unfold MockApi.mock_counts at h
  rw [List.mem_map] at h
  obtain ⟨p, hp, heq⟩ := h
  exact ⟨p.1, p.2, mem_of_mem_enum hp, heq.symm⟩

theorem mkMockCount_spec (cid dsId : Int) (date : Nat × Nat × Nat) (hour : Nat)
    (inp : MockApi.DrawInput) :
    (∃ r, (MockApi.mkMockCount cid dsId date hour inp).raw_count = some r ∧ 0 ≤ r) ∧
    (∀ v ∈ (MockApi.mkMockCount cid dsId date hour inp).qaFlags,
      v = some 0 ∨ v = some 1) ∧
    (MockApi.mkMockCount cid dsId date hour inp).qaFlags.countP
      (fun v => v == some 0) ≤ 1 ∧
    (MockApi.mkMockCount cid dsId date hour inp).datastream_id = dsId := by
  rcases inp with ⟨preRaw, cleaned, ff⟩
  have hraw : ∃ r,
      (MockApi.mkMockCount cid dsId date hour ⟨preRaw, cleaned, ff⟩).raw_count =
        some r ∧ 0 ≤ r := by
    refine ⟨if preRaw < 0 then 0 else preRaw, rfl, ?_⟩
    split
    · omega
    · omega
  rcases ff with _ | f
  · have hflags : (MockApi.mkMockCount cid dsId date hour
        ⟨preRaw, cleaned, none⟩).qaFlags =
        [some 1, some 1, some 1, some 1, some 1] := rfl
    refine ⟨hraw, ?_, ?_, rfl⟩
    · rw [hflags]; decide
    · rw [hflags]; decide
  · cases f <;> refine ⟨hraw, ?_, ?_, rfl⟩ <;>
      simp [MockApi.mkMockCount, Count.qaFlags]

/-! ## Claims -/

/-- C1: For the DB-backed counts endpoint, the handler raises HTTP 404
exactly when `get_counts_for_datastream_from_db` returns the empty list, so
an unknown `datastream_id` (no matching row) and a datastream with zero
count rows are indistinguishable — both yield 404 — and whenever at least
one row matches it returns exactly the Count records whose `datastream_id`
equals the path parameter. -/
theorem new_counts_endpoint_spec (table : List Count) (did : Int) :
    (new_get_counts_for_datastream table did = .err404 ↔
      get_counts_for_datastream_from_db table did = []) ∧
    ((¬ ∃ c ∈ table, c.datastream_id = did) →
      new_get_counts_for_datastream table did = .err404) ∧
    ((∃ c ∈ table, c.datastream_id = did) →
      new_get_counts_for_datastream table did =
        .ok (table.filter (fun c => c.datastream_id == did))) := by
  have hfe : get_counts_for_datastream_from_db table did = [] ↔
      ¬ ∃ c ∈ table, c.datastream_id = did := by
    unfold get_counts_for_datastream_from_db
    rw [List.filter_eq_nil_iff]
    constructor
    · rintro h ⟨c, hc, he⟩
      exact h c hc (by simp [he])
    · intro h c hc hb
      exact h ⟨c, hc, by simpa using hb⟩
  by_cases h : get_counts_for_datastream_from_db table did = []
  · refine ⟨?_, ?_, ?_⟩
    · simp [new_get_counts_for_datastream, h]
    · intro _
      simp [new_get_counts_for_datastream, h]
    · intro hex
      exact absurd hex (hfe.mp h)
  · refine ⟨?_, ?_, ?_⟩
    · simp [new_get_counts_for_datastream, h]
    · intro hne
      exact absurd (hfe.mpr hne) h
    · intro hex
      simp [new_get_counts_for_datastream, get_counts_for_datastream_from_db, h]
      exact hex

/-- Witness for C1: on a one-row table, `datastream_id = 45` returns the
matching records and `datastream_id = 1` yields 404. -/
theorem new_counts_endpoint_spec_witness :
    new_get_counts_for_datastream [sampleCount] 45 =
      .ok ([sampleCount].filter (fun c => c.datastream_id == 45)) ∧
    new_get_counts_for_datastream [sampleCount] 1 = .err404 :=
  ⟨(new_counts_endpoint_spec [sampleCount] 45).2.2 (by decide),
   (new_counts_endpoint_spec [sampleCount] 1).2.1 (by decide)⟩

/-- C2 counterexample: in the SQLite-backed variant the datastreams handler
raises 404 on an empty result even when the counter exists — with a counters
table containing counter 12 and an empty datastreams table, the handler
yields 404 although `counter_id = 12` identifies an existing Counter (it
never consults the counters table). -/
theorem new_datastreams_404_despite_existing_counter :
    (∃ c ∈ [sampleCounter], c.counter_id = 12) ∧
    new_get_datastreams_for_counter ([] : List Datastream) 12 = .err404 := by
  constructor
  · exact ⟨sampleCounter, List.mem_singleton_self _, rfl⟩
  · rfl

/-- C2 (amended): the mock-data variant raises 404 exactly when no mock
counter carries the requested id and otherwise returns the (possibly empty)
filtered datastream list; the SQLite-backed variant instead raises 404
exactly when the filtered datastream list is empty, without checking
counter existence. -/
theorem datastreams_endpoint_spec :
    (∀ cid : Int,
      (MockApi.get_datastreams_for_counter cid = .err404 ↔
        ¬ ∃ c ∈ MockApi.mock_counters, c.counter_id = cid) ∧
      ((∃ c ∈ MockApi.mock_counters, c.counter_id = cid) →
        MockApi.get_datastreams_for_counter cid =
          .ok (MockApi.mock_datastreams.filter (fun d => d.counter_id == cid)))) ∧
    (∀ (table : List Datastream) (cid : Int),
      (new_get_datastreams_for_counter table cid = .err404 ↔
        table.filter (fun d => d.counter_id == cid) = []) ∧
      (table.filter (fun d => d.counter_id == cid) ≠ [] →
        new_get_datastreams_for_counter table cid =
          .ok (table.filter (fun d => d.counter_id == cid)))) := by
  constructor
  · intro cid
    have hany : (MockApi.mock_counters.any fun c => c.counter_id == cid) = true ↔
        ∃ c ∈ MockApi.mock_counters, c.counter_id = cid := by
      simp [List.any_eq_true]
    by_cases h : (MockApi.mock_counters.any fun c => c.counter_id == cid) = true
    · have hh : MockApi.get_datastreams_for_counter cid =
          .ok (MockApi.mock_datastreams.filter fun d => d.counter_id == cid) := by
        unfold MockApi.get_datastreams_for_counter
        rw [h]
        rfl
      refine ⟨?_, fun _ => hh⟩
      rw [hh]
      constructor
      · intro hcontra
        exact ApiResult.noConfusion hcontra
      · intro hnex
        exact absurd (hany.mp h) hnex
    · have hfalse :
          (MockApi.mock_counters.any fun c => c.counter_id == cid) = false := by
        revert h
        cases MockApi.mock_counters.any fun c => c.counter_id == cid <;> simp
      have hh : MockApi.get_datastreams_for_counter cid = .err404 := by
        unfold MockApi.get_datastreams_for_counter
        rw [hfalse]
        rfl
      refine ⟨?_, ?_⟩
      · rw [hh]
        exact ⟨fun _ hex => h (hany.mpr hex), fun _ => rfl⟩
      · intro hex
        exact absurd (hany.mpr hex) h
  · intro table cid
    by_cases h : table.filter (fun d => d.counter_id == cid) = []
    · refine ⟨?_, ?_⟩
      · simp [new_get_datastreams_for_counter, get_datastreams_for_counter_from_db, h]
      · intro hne
        exact absurd h hne
    · refine ⟨?_, ?_⟩
      · simp [new_get_datastreams_for_counter, get_datastreams_for_counter_from_db, h]
      · intro _
        simp [new_get_datastreams_for_counter, get_datastreams_for_counter_from_db, h]

/-- Witness for C2 (amended): counter 3 exists among the mocks, so the mock
handler returns its filtered datastreams; and on a table whose filter for
id 1 is non-empty the DB-backed handler returns the filtered list. -/
theorem datastreams_endpoint_spec_witness :
    MockApi.get_datastreams_for_counter 3 =
      .ok (MockApi.mock_datastreams.filter (fun d => d.counter_id == 3)) ∧
    new_get_datastreams_for_counter [sampleNewDatastream] 1 =
      .ok ([sampleNewDatastream].filter (fun d => d.counter_id == 1)) :=
  ⟨(datastreams_endpoint_spec.1 3).2 (by decide),
   (datastreams_endpoint_spec.2 [sampleNewDatastream] 1).2 (by decide)⟩

/-- C5 counterexample: the `Count` model does not have exactly four QA flag
fields each restricted to 0/1/absent — `sevenFlagCount` is a well-typed
`Count` with five QA flag fields, one of which holds the value 7. -/
theorem count_four_binary_flags_false :
    ¬ ((Count.qaFlags sevenFlagCount).length = 4 ∧
       ∀ v ∈ Count.qaFlags sevenFlagCount,
         v = none ∨ v = some 0 ∨ v = some 1) := by
  decide

/-- C5 (amended): the `Count` record type has exactly five QA flag fields,
namely maxday/maxhour/gap/zero/stat, each a plain optional int (the 0/1
reading lives only in the field descriptions and is not enforced by the
type), alongside count_id, datastream_id, date_time, raw_count and
cleaned_count, all freely choosable. -/
theorem count_five_flag_fields :
    (∀ c : Count, (Count.qaFlags c).length = 5) ∧
    (∀ (cid did : Int) (dt : DateTimeVal) (rc : Option Int) (cc : Option Rat)
       (m mh g z st : Option Int),
      ∃ c : Count, c.count_id = cid ∧ c.datastream_id = did ∧
        c.date_time = dt ∧ c.raw_count = rc ∧ c.cleaned_count = cc ∧
        Count.qaFlags c = [m, mh, g, z, st]) := by
  refine ⟨fun c => rfl, ?_⟩
  intro cid did dt rc cc m mh g z st
  exact ⟨{ count_id := cid, datastream_id := did, date_time := dt,
           raw_count := rc, maxday := m, maxhour := mh, gap := g,
           zero := z, stat := st, cleaned_count := cc },
         rfl, rfl, rfl, rfl, rfl, rfl⟩

/-- C8 counterexample: the two app variants do not expose the same set of
GET endpoints — `/health` is a route of the SQLite-backed app but not of
the mock-data app. -/
theorem health_route_only_in_new_variant :
    "/health" ∈ newAppRoutes ∧ "/health" ∉ MockApi.mockAppRoutes := by
  decide

/-- C8 (amended): the two variants expose the same three resource GET
endpoints (the SQLite-backed app's router paths coincide with the mock
app's paths), and only the SQLite-backed variant additionally exposes
`GET /health`, which returns the liveness payload
`{"status": "healthy", "message": "NM COAST API is running"}`. -/
theorem routes_coincide_except_health :
    newRouterRoutes = MockApi.mockAppRoutes ∧
    newAppRoutes = "/health" :: MockApi.mockAppRoutes ∧
    health_check = ("healthy", "NM COAST API is running") ∧
    "/health" ∉ MockApi.mockAppRoutes := by
  refine ⟨rfl, rfl, rfl, ?_⟩
  decide

/-- C3: `validate_data` returns successfully iff every (coerced) input row
passes model validation — equivalently, it raises exactly when at least one
row fails; on failure the raised error carries one collected message per
failing row (and at least one); on success it returns exactly one validated
record per input row, in input order, and no partial result otherwise. -/
theorem validate_data_spec (parseDT : CellValue → Option Int) {R : Type}
    (pm : PydModel R) (df : List Row) (fp : String) (ci : Option String) :
    ((validate_data parseDT pm df fp ci).isOk = true ↔
      ∀ r ∈ validationInputs parseDT pm df, (pm.modelValidate r).isOk = true) ∧
    (∀ es, validate_data parseDT pm df fp ci = .error es →
      es ≠ [] ∧
      es.length = (validationInputs parseDT pm df).countP
        (fun r => !(pm.modelValidate r).isOk)) ∧
    (∀ recs, validate_data parseDT pm df fp ci = .ok recs →
      recs.length = df.length ∧
      (validationInputs parseDT pm df).map pm.modelValidate = recs.map Except.ok) := by
  refine ⟨validate_data_isOk_iff parseDT pm df fp ci, ?_, ?_⟩
  · intro es h
    exact ⟨validate_data_error_ne_nil parseDT pm df fp ci es h,
           validate_data_error_spec parseDT pm df fp ci es h⟩
  · intro recs h
    exact ⟨validate_data_ok_length parseDT pm df fp ci recs h,
           validate_data_ok_spec parseDT pm df fp ci recs h⟩

/-- Witness for C3: a one-row frame that validates yields exactly its one
record, and a one-row frame that fails yields one collected error. -/
theorem validate_data_spec_witness :
    (([(3 : Int)]).length = dfIntOk.length ∧
     (validationInputs parseDTnone pmInt dfIntOk).map pmInt.modelValidate =
       ([(3 : Int)]).map Except.ok) ∧
    (esIntBad ≠ [] ∧
     esIntBad.length = (validationInputs parseDTnone pmInt dfIntBad).countP
       (fun r => !(pmInt.modelValidate r).isOk)) :=
  ⟨(validate_data_spec parseDTnone pmInt dfIntOk "counts.xlsx" none).2.2 [3] rfl,
   (validate_data_spec parseDTnone pmInt dfIntBad "counts.xlsx" none).2.1
     esIntBad rfl⟩

/-- C4: `load_data` dispatches on the file extension: for `.csv` it reads
the input in consecutive chunks of 100000 rows (the chunks read are exactly
the 100000-row slices of the file, in order), and — when validation
succeeds — writes the first chunk with `if_exists='replace'` and every
subsequent chunk with `'append'`; for `.xlsx`/`.xls` it reads and validates
the whole file in one shot and writes it with one `'replace'`; any other
extension is rejected with a `ValueError`. -/
theorem load_data_dispatch (parseDT : CellValue → Option Int) {R : Type}
    (pm : PydModel R) (fp tn : String) (rows : List Row) :
    (fileExtension fp = ".csv" →
      (∀ c ∈ chunkList 100000 rows,
        (validate_data parseDT pm (c.map renameCols) fp none).isOk = true) →
      ((load_data parseDT fp pm tn (some ()) rows).2 = none ∧
       readChunks (load_data parseDT fp pm tn (some ()) rows).1 =
         chunkList 100000 rows ∧
       (chunkList 100000 rows).flatten = rows ∧
       (∀ c ∈ chunkList 100000 rows, c.length ≤ 100000) ∧
       writeModes (load_data parseDT fp pm tn (some ()) rows).1 =
         (List.range (chunkList 100000 rows).length).map
           (fun j => if j = 0 then WriteMode.replace else WriteMode.append))) ∧
    ((fileExtension fp = ".xlsx" ∨ fileExtension fp = ".xls") →
      ∀ recs, validate_data parseDT pm (rows.map renameCols) fp none = .ok recs →
        load_data parseDT fp pm tn (some ()) rows =
          (if recs.isEmpty then [LoadEvent.readExcel rows]
           else [LoadEvent.readExcel rows, .write tn .replace recs], none)) ∧
    (fileExtension fp ∉ [".csv", ".xlsx", ".xls"] →
      ∃ msg, load_data parseDT fp pm tn (some ()) rows = ([], some msg)) := by
  refine ⟨?_, ?_, ?_⟩
  · intro hext hok
    rw [load_data_csv_eq parseDT pm fp tn rows hext]
    obtain ⟨h1, h2, h3⟩ := csvGo_ok_spec parseDT pm tn fp (chunkList 100000 rows) 0
      (fun c hc => chunkList_ne_nil 100000 rows c hc) hok
    refine ⟨h1, h2, chunkList_flatten 100000 rows,
      fun c hc => chunkList_length_le 100000 rows c hc (by omega), ?_⟩
    rw [h3]
    apply List.map_congr_left
    intro j _
    rw [Nat.zero_add]
  · intro hext recs hv
    exact load_data_excel_eq parseDT pm fp tn rows hext recs hv
  · intro hext
    exact ⟨_, load_data_bad_ext parseDT pm fp tn rows hext⟩

/-- Witness for C4: a one-row CSV is read as a single chunk and written
once with replace; the same rows as an XLSX are written in one replace
write; a `.txt` path is rejected. -/
theorem load_data_dispatch_witness :
    ((load_data parseDTnone "counts.csv" pmInt "counts" (some ()) dfIntOk).2 = none ∧
     readChunks (load_data parseDTnone "counts.csv" pmInt "counts" (some ())
       dfIntOk).1 = chunkList 100000 dfIntOk ∧
     (chunkList 100000 dfIntOk).flatten = dfIntOk ∧
     (∀ c ∈ chunkList 100000 dfIntOk, c.length ≤ 100000) ∧
     writeModes (load_data parseDTnone "counts.csv" pmInt "counts" (some ())
       dfIntOk).1 =
       (List.range (chunkList 100000 dfIntOk).length).map
         (fun j => if j = 0 then WriteMode.replace else WriteMode.append)) ∧
    (load_data parseDTnone "counts.xlsx" pmInt "counts" (some ()) dfIntOk =
      (if ([(3 : Int)]).isEmpty then [LoadEvent.readExcel dfIntOk]
       else [LoadEvent.readExcel dfIntOk, .write "counts" .replace [(3 : Int)]],
       none)) ∧
    (∃ msg, load_data parseDTnone "counts.txt" pmInt "counts" (some ()) dfIntOk =
      ([], some msg)) :=
  ⟨(load_data_dispatch parseDTnone pmInt "counts.csv" "counts" dfIntOk).1 rfl
     (by decide),
   (load_data_dispatch parseDTnone pmInt "counts.xlsx" "counts" dfIntOk).2.1
     (Or.inl rfl) [3] rfl,
   (load_data_dispatch parseDTnone pmInt "counts.txt" "counts" dfIntOk).2.2
     (by decide)⟩

/-- C10: whenever the engine is `None` or the file's lower-cased extension
is none of `.csv`/`.xlsx`/`.xls`, `load_data` raises a `ValueError` having
performed no I/O event at all — nothing is read and the database state is
unchanged. -/
theorem load_data_guards (parseDT : CellValue → Option Int) {R : Type}
    (pm : PydModel R) (fp tn : String) (engine : Option Unit) (rows : List Row) :
    (engine = none ∨ fileExtension fp ∉ [".csv", ".xlsx", ".xls"]) →
    ((load_data parseDT fp pm tn engine rows).1 = [] ∧
     ((load_data parseDT fp pm tn engine rows).2).isSome = true ∧
     ∀ db : Db R, applyEvents db (load_data parseDT fp pm tn engine rows).1 = db) := by
  intro h
  have hres : ∃ msg, load_data parseDT fp pm tn engine rows = ([], some msg) := by
    rcases h with rfl | hbad
    · exact ⟨_, load_data_engine_none parseDT pm fp tn rows⟩
    · cases engine with
      | none => exact ⟨_, load_data_engine_none parseDT pm fp tn rows⟩
      | some u =>
        cases u
        exact ⟨_, load_data_bad_ext parseDT pm fp tn rows hbad⟩
  obtain ⟨msg, hm⟩ := hres
  rw [hm]
  exact ⟨rfl, rfl, fun db => rfl⟩

/-- Witness for C10: with a missing engine, and with a `.txt` path, the
loader performs no event and any database is left unchanged. -/
theorem load_data_guards_witness :
    ((load_data parseDTnone "counts.csv" pmInt "counts" none dfIntOk).1 = [] ∧
     ((load_data parseDTnone "counts.csv" pmInt "counts" none dfIntOk).2).isSome
       = true ∧
     ∀ db : Db Int,
       applyEvents db (load_data parseDTnone "counts.csv" pmInt "counts" none
         dfIntOk).1 = db) ∧
    ((load_data parseDTnone "counts.txt" pmInt "counts" (some ()) dfIntOk).1 = [] ∧
     ((load_data parseDTnone "counts.txt" pmInt "counts" (some ())
       dfIntOk).2).isSome = true ∧
     ∀ db : Db Int,
       applyEvents db (load_data parseDTnone "counts.txt" pmInt "counts" (some ())
         dfIntOk).1 = db) :=
  ⟨load_data_guards parseDTnone pmInt "counts.csv" "counts" none dfIntOk
     (Or.inl rfl),
   load_data_guards parseDTnone pmInt "counts.txt" "counts" (some ()) dfIntOk
     (Or.inr (by decide))⟩

/-- C6 (evidence of the defect): in `validate_data`'s datetime coercion, a
parseable ISO8601 value is converted to the fixed timezone
`America/New_York`, and an already-missing value (`NaT`) becomes `None` —
but an unparseable non-missing value (here the string `"hello"`) is *not*
replaced by `None`: it survives into the row handed to validation, because
line 203 writes back only the successfully parsed indices and the
`replace({pd.NaT: None})` on line 211 does not match it. -/
theorem unparseable_datetime_not_replaced :
    validationInputs parseDTex pmDateTime dfDates =
      [[("date_time", .dtV 1717200000 TARGET_LOCAL_TZ)],
       [("date_time", .strV "hello")],
       [("date_time", .noneV)]] ∧
    CellValue.strV "hello" ≠ CellValue.noneV :=
  ⟨rfl, by decide⟩

/-- C7: referential integrity of the mock data — every mock datastream's
`counter_id` is the id of some mock counter, and, for any stream of random
draws, every generated mock count's `datastream_id` is the id of some mock
datastream. -/
theorem mock_referential_integrity :
    (∀ ds ∈ MockApi.mock_datastreams,
      ∃ c ∈ MockApi.mock_counters, c.counter_id = ds.counter_id) ∧
    (∀ (oracle : Nat → MockApi.DrawInput),
      ∀ cnt ∈ MockApi.mock_counts oracle,
        ∃ ds ∈ MockApi.mock_datastreams,
          ds.datastream_id = cnt.datastream_id) := by
  constructor
  · decide
  · intro oracle cnt hc
    obtain ⟨k, t, ht, rfl⟩ := mock_counts_mem hc
    exact ⟨t.2.1, genTriples_ds_mem t ht, rfl⟩

/-- Witness for C7: the first mock datastream references a mock counter,
and the first generated count (under a concrete oracle) references a mock
datastream. -/
theorem mock_referential_integrity_witness :
    (∃ c ∈ MockApi.mock_counters,
      c.counter_id = firstMockDatastream.counter_id) ∧
    (∃ ds ∈ MockApi.mock_datastreams,
      ds.datastream_id = firstMockCountA.datastream_id) :=
  ⟨mock_referential_integrity.1 firstMockDatastream (by decide),
   mock_referential_integrity.2 oracleA firstMockCountA (by decide)⟩

/-- C9: every generated mock count has a non-negative `raw_count`, each of
its five QA flags is 0 or 1, and at most one of the five flags is 0 — for
any stream of random draws. -/
theorem mock_counts_invariants :
    ∀ (oracle : Nat → MockApi.DrawInput), ∀ cnt ∈ MockApi.mock_counts oracle,
      (∃ r, cnt.raw_count = some r ∧ 0 ≤ r) ∧
      (∀ v ∈ Count.qaFlags cnt, v = some 0 ∨ v = some 1) ∧
      (Count.qaFlags cnt).countP (fun v => v == some 0) ≤ 1 := by
  intro oracle cnt hc
  obtain ⟨k, t, ht, rfl⟩ := mock_counts_mem hc
  obtain ⟨h1, h2, h3, _⟩ :=
    mkMockCount_spec (100 + (k : Int)) t.2.1.datastream_id t.1 t.2.2 (oracle k)
  exact ⟨h1, h2, h3⟩

/-- Witness for C9: the first generated count under an oracle that fails
the `stat` flag and draws a negative pre-clamp raw count still satisfies
all three invariants. -/
theorem mock_counts_invariants_witness :
    (∃ r, firstMockCountB.raw_count = some r ∧ 0 ≤ r) ∧
    (∀ v ∈ Count.qaFlags firstMockCountB, v = some 0 ∨ v = some 1) ∧
    (Count.qaFlags firstMockCountB).countP (fun v => v == some 0) ≤ 1 :=
  mock_counts_invariants oracleB firstMockCountB (by decide)
